import Mathlib

/-!
Verification of the stealth-patch injection layer (stealth_patch.js).

The file shallowly embeds the IIFE that the automation driver injects into
every new document: the navigator identity overrides, the userAgentData
fallback, the canvas / WebGL / audio fingerprint wrappers, the window
artifact sweep, the permissions-query wrapper, the plugin / mimeType
fallback, and the applied marker.  Machine bytes are `Nat` (canvas pixel
bytes are values below 256), audio samples are `ℚ` (the JS float literal
1e-7 is modelled as the exact rational 1/10^7), and every `try { ... }
catch (e) {}` block is modelled by running the step in `Except` and
discarding its error.
-/

namespace Stealth

/-! ### Pixel noise (the getImageData wrapper loop) -/

/-- One perturbed byte: `data.data[i] = data.data[i] ^ 0x11`. -/
def perturbByte (b : Nat) : Nat := b ^^^ 0x11

/-- The loop `for (let i = 0; i < data.data.length; i += 10)` touches exactly
the indices that are multiples of 10; walking every index with a running
counter `i` and perturbing when `i % 10 = 0` is the same traversal. -/
def noisePixelsAux (i : Nat) : List Nat → List Nat
  | [] => []
  | b :: bs => (if i % 10 = 0 then perturbByte b else b) :: noisePixelsAux (i + 1) bs

/-- The pixel-noise pass of the patched `getImageData`. -/
def noisePixels (d : List Nat) : List Nat := noisePixelsAux 0 d

/-! ### Audio noise (the getChannelData wrapper loop) -/

/-- The JS literal `1e-7`, modelled as the exact rational. -/
def audioEpsilon : ℚ := 1 / 10000000

/-- The loop `for (let i = 0; i < data.length; i += 100)` adds `1e-7` to
every 100th sample; again modelled by a running index. -/
def noiseAudioAux (i : Nat) : List ℚ → List ℚ
  | [] => []
  | s :: ss => (if i % 100 = 0 then s + audioEpsilon else s) :: noiseAudioAux (i + 1) ss

/-- The audio-noise pass of the patched `getChannelData`. -/
def noiseAudio (d : List ℚ) : List ℚ := noiseAudioAux 0 d

/-! ### Canvas bitmaps and the toDataURL wrapper's transparent fill -/

/-- One bitmap pixel, premultiplied-alpha channels as canvas engines store
them (each channel a rational in [0,1]). -/
structure RGBA where
  r : ℚ
  g : ℚ
  b : ℚ
  a : ℚ
deriving DecidableEq, Repr

/-- The fill style `rgba(0,0,0,0)` set by the toDataURL wrapper. -/
def transparentBlack : RGBA := ⟨0, 0, 0, 0⟩

/-- Source-over compositing on premultiplied channels:
`out = src + dst * (1 - src.a)`, the default canvas composite operation. -/
def sourceOver (src dst : RGBA) : RGBA :=
  ⟨src.r + dst.r * (1 - src.a),
   src.g + dst.g * (1 - src.a),
   src.b + dst.b * (1 - src.a),
   src.a + dst.a * (1 - src.a)⟩

/-- A canvas: its bitmap (row-major, pixel 0 is the origin) and whether
`getContext('2d')` yields a context (it returns null on a WebGL canvas). -/
structure Canvas where
  pixels : List RGBA
  has2dContext : Bool
deriving DecidableEq, Repr

/-- `ctx.fillRect(0, 0, 1, 1)`: composite the current fill style onto the
origin pixel (a no-op on an empty bitmap). -/
def fillRect1x1 (style : RGBA) (c : Canvas) : Canvas :=
  match c.pixels with
  | [] => c
  | p :: ps => { c with pixels := sourceOver style p :: ps }

/-- The body of the toDataURL wrapper before delegation: if the canvas has a
2D context, set the fill style to `rgba(0,0,0,0)` and fill the 1x1 origin
rectangle; otherwise leave the canvas alone. -/
def transparentTouch (c : Canvas) : Canvas :=
  if c.has2dContext then fillRect1x1 transparentBlack c else c

/-! ### WebGL getParameter -/

/-- A value the WebGL parameter query can produce. -/
inductive GLVal where
  | str (s : String)
  | num (n : Int)
deriving DecidableEq, Repr

/-- The patched `WebGLRenderingContext.prototype.getParameter`:
37445 (UNMASKED_VENDOR_WEBGL) and 37446 (UNMASKED_RENDERER_WEBGL) return
fixed strings, every other code delegates to the captured original. -/
def patchedGetParameter (g : Nat → GLVal) (param : Nat) : GLVal :=
  if param = 37445 then .str "Intel Inc."
  else if param = 37446 then .str "Intel Iris OpenGL Engine"
  else g param

/-! ### Audio buffers -/

/-- An AudioBuffer: the stored PCM channel data. -/
structure AudioBuffer where
  channel : List ℚ
deriving DecidableEq, Repr

/-- The engine's `AudioBuffer.prototype.getChannelData`: per Web Audio
semantics it returns the live Float32Array backing the channel (repeated
calls yield the same array), so the model returns the stored samples and
the unchanged buffer. -/
def nativeGetChannelData : AudioBuffer → List ℚ × AudioBuffer :=
  fun b => (b.channel, b)

/-- The getChannelData wrapper: call the original, then run the noise loop
`data[i] = data[i] + 1e-7` in place.  Because the returned array is the
buffer's live backing store, the written samples persist in the buffer. -/
def wrapGetChannelData (f : AudioBuffer → List ℚ × AudioBuffer)
    (b : AudioBuffer) : List ℚ × AudioBuffer :=
  let r := f b
  let d2 := noiseAudio r.1
  (d2, { r.2 with channel := d2 })

/-! ### Window own properties and the artifact sweep -/

/-- One own property of the global object: its name and whether `delete`
can remove it (JS: whether the property is configurable; the IIFE runs in
strict mode so deleting a non-configurable property throws, and every
delete is wrapped in its own try/catch). -/
structure WinProp where
  propName : String
  deletable : Bool
deriving DecidableEq, Repr

/-- Decidable check that `needle` is a prefix of `hay` (on char lists). -/
def listPrefixOf : List Char → List Char → Bool
  | [], _ => true
  | _ :: _, [] => false
  | a :: as, b :: bs => a == b && listPrefixOf as bs

/-- Decidable check that `needle` occurs as a contiguous run in `hay`. -/
def listContains (needle hay : List Char) : Bool :=
  match hay with
  | [] => listPrefixOf needle []
  | _ :: t => listPrefixOf needle hay || listContains needle t

/-- ASCII lower-casing of one character, the case folding the
case-insensitive regex flag performs on these ASCII-only patterns. -/
def lowerChar (c : Char) : Char :=
  if 65 ≤ c.toNat ∧ c.toNat ≤ 90 then Char.ofNat (c.toNat + 32) else c

/-- A name lower-cased for case-insensitive matching. -/
def lowerName (k : String) : List Char := k.data.map lowerChar

/-- The sweep regex `/^__?cdc_|webdriver|__driver|selenium|driver/i`:
a name starting with `_cdc_` or `__cdc_` (one underscore, then an optional
second one, then `cdc_`), or containing `webdriver`, `__driver`,
`selenium` or `driver`, case-insensitively.  Note the `cdc_` branch is
anchored and requires at least one leading underscore. -/
def artifactMatch (k : String) : Bool :=
  let s := lowerName k
  listPrefixOf "_cdc_".data s || listPrefixOf "__cdc_".data s ||
  listContains "webdriver".data s || listContains "__driver".data s ||
  listContains "selenium".data s || listContains "driver".data s

/-- Modelled from the spec: the automation-artifact pattern as the
specification words it — "a `cdc_`-prefixed identifier, or a name
containing webdriver, driver, or selenium, case-insensitively".  Kept
separate from `artifactMatch` (the code's regex) so the two can be
compared. -/
def specArtifactMatch (k : String) : Bool :=
  let s := lowerName k
  listPrefixOf "cdc_".data s ||
  listContains "webdriver".data s || listContains "driver".data s ||
  listContains "selenium".data s

/-- `delete window[name]` (strict mode): removes the property when it is
deletable; on a non-deletable property the delete throws and the
surrounding catch leaves it in place. -/
def deleteProp (k : String) (ps : List WinProp) : List WinProp :=
  ps.filter (fun p => !(p.propName == k && p.deletable))

/-- A property survives the regex sweep unless its name matches and it is
deletable. -/
def sweepKeep (p : WinProp) : Bool := !(artifactMatch p.propName && p.deletable)

/-- The artifact block: two explicit deletes of `__webdriver` and
`_webdriver`, then the regex sweep over the remaining own names. -/
def artifactSweepProps (ps : List WinProp) : List WinProp :=
  (deleteProp "_webdriver" (deleteProp "__webdriver" ps)).filter sweepKeep

/-- `Object.defineProperty(window, k, ...)`: redefining an existing
property keeps its position in the own-name order, defining a new one
appends it. -/
def defineWinProp (ps : List WinProp) (k : String) (del : Bool) : List WinProp :=
  if ps.any (fun p => p.propName == k) then
    ps.map (fun p => if p.propName == k then ⟨k, del⟩ else p)
  else ps ++ [⟨k, del⟩]

/-- The debug marker name defined at the end of the IIFE. -/
def markerName : String := "__stealth_patch_applied__"

/-! ### Navigator data: userAgentData, plugins, mimeTypes, permissions -/

/-- One entry of `getBrands()`. -/
structure Brand where
  brand : String
  version : String
deriving DecidableEq, Repr

/-- The `navigator.userAgentData` shape the fallback installs. -/
structure UAData where
  brands : List Brand
  mobile : Bool
  uaPlatform : String
deriving DecidableEq, Repr

/-- The fixed userAgentData fallback value. -/
def fixedUserAgentData : UAData :=
  ⟨[⟨"Chromium", "120"⟩, ⟨"Google Chrome", "120"⟩], false, "Windows"⟩

/-- The userAgentData block: only when `navigator.userAgentData ===
undefined` is the fixed fallback defined; otherwise nothing happens. -/
def uaPatch (o : Option UAData) : Option UAData :=
  if o = none then some fixedUserAgentData else o

/-- One plugin entry.  The installed faux objects also carry `length: 0`
and `0: undefined` fields, irrelevant to the enumerated identity. -/
structure Plugin where
  pluginName : String
  filename : String
  description : String
deriving DecidableEq, Repr

/-- The two-entry faux PDF plugin list. -/
def fakePlugins : List Plugin :=
  [⟨"Chrome PDF Plugin", "internal-pdf-viewer", ""⟩,
   ⟨"Chromium PDF Viewer", "mhjfbmdgcfjbbpaeojofohoefgiehjai", ""⟩]

/-- One mimeType entry (the code only ever installs an empty list). -/
structure MimeType where
  mimeName : String
deriving DecidableEq, Repr

/-- The plugins branch: `if (navigator.plugins && navigator.plugins.length
=== 0)` define the faux list; an absent plugin list or a non-empty one is
untouched. -/
def pluginsPatch (o : Option (List Plugin)) : Option (List Plugin) :=
  match o with
  | none => none
  | some ps => if ps.length = 0 then some fakePlugins else some ps

/-- The mimeTypes branch: `if (navigator.mimeTypes &&
navigator.mimeTypes.length === 0)` define an empty array. -/
def mimesPatch (o : Option (List MimeType)) : Option (List MimeType) :=
  match o with
  | none => none
  | some ms => if ms.length = 0 then some [] else some ms

/-- The permissions block: when `navigator.permissions.query` exists, wrap
it so a query named `notifications` resolves to `Notification.permission`
(the live value, here `np`) and every other name delegates; when the
permissions API is absent nothing is installed.  Query results are the
resolved permission-state strings. -/
def permPatch (np : String) (o : Option (String → String)) :
    Option (String → String) :=
  match o with
  | none => none
  | some q => some (fun nm => if nm == "notifications" then np else q nm)

/-! ### The host document state and the injection session -/

/-- The document/global state the IIFE touches.  Pure data models getter
values; wrapped prototype methods are modelled as the installed function
values.  `webglGetParameter = none` models an engine with no
`WebGLRenderingContext` at all (referencing it throws).  All other target
APIs are modelled as present. -/
structure Host where
  navLanguages : List String
  navPlatform : String
  navHardwareConcurrency : Nat
  navDeviceMemory : Nat
  navWebdriver : Option Bool
  navUserAgentData : Option UAData
  navPlugins : Option (List Plugin)
  navMimeTypes : Option (List MimeType)
  permissionsQuery : Option (String → String)
  notificationPermission : String
  toDataURLImpl : Canvas → List RGBA
  getImageDataImpl : List Nat → List Nat
  webglGetParameter : Option (Nat → GLVal)
  getChannelDataImpl : AudioBuffer → List ℚ × AudioBuffer
  winProps : List WinProp

/-- The navigator identity block: fixed languages, platform,
hardwareConcurrency and deviceMemory getters, and a getter returning
undefined for webdriver (the prototype define covers the same surface). -/
def navStep (h : Host) : Except String Host := .ok { h with
  navLanguages := ["en-US", "en"]
  navPlatform := "Win32"
  navHardwareConcurrency := 8
  navDeviceMemory := 8
  navWebdriver := none }

/-- The userAgentData fallback block. -/
def uaStep (h : Host) : Except String Host :=
  .ok { h with navUserAgentData := uaPatch h.navUserAgentData }

/-- The canvas block: wrap `toDataURL` (transparent 1x1 touch, then
delegate to the captured original) and `getImageData` (delegate, then run
the noise loop over the returned copy). -/
def canvasStep (h : Host) : Except String Host := .ok { h with
  toDataURLImpl := fun c => h.toDataURLImpl (transparentTouch c)
  getImageDataImpl := fun d => noisePixels (h.getImageDataImpl d) }

/-- The WebGL block: reading `WebGLRenderingContext.prototype.getParameter`
throws a ReferenceError when the engine has no WebGL; otherwise the
wrapper replaces it. -/
def webglStep (h : Host) : Except String Host :=
  match h.webglGetParameter with
  | none => .error "ReferenceError: WebGLRenderingContext is not defined"
  | some g => .ok { h with webglGetParameter := some (patchedGetParameter g) }

/-- The audio block: wrap `getChannelData`. -/
def audioStep (h : Host) : Except String Host :=
  .ok { h with getChannelDataImpl := wrapGetChannelData h.getChannelDataImpl }

/-- The artifact block: explicit deletes, then the regex sweep. -/
def artifactStep (h : Host) : Except String Host :=
  .ok { h with winProps := artifactSweepProps h.winProps }

/-- The permissions block. -/
def permissionsStep (h : Host) : Except String Host :=
  .ok { h with
    permissionsQuery := permPatch h.notificationPermission h.permissionsQuery }

/-- The plugins / mimeTypes block. -/
def pluginsStep (h : Host) : Except String Host := .ok { h with
  navPlugins := pluginsPatch h.navPlugins
  navMimeTypes := mimesPatch h.navMimeTypes }

/-- The final block: define the non-enumerable (still an own name),
configurable debug marker. -/
def markerStep (h : Host) : Except String Host :=
  .ok { h with winProps := defineWinProp h.winProps markerName true }

/-- The top-level try blocks of the IIFE, in source order. -/
inductive StepLabel where
  | navIdentity | userAgentData | canvas | webgl | audio
  | artifactSweep | permissions | plugins | marker
deriving DecidableEq, Repr

/-- Dispatch a label to its block. -/
def stepOf : StepLabel → Host → Except String Host
  | .navIdentity => navStep
  | .userAgentData => uaStep
  | .canvas => canvasStep
  | .webgl => webglStep
  | .audio => audioStep
  | .artifactSweep => artifactStep
  | .permissions => permissionsStep
  | .plugins => pluginsStep
  | .marker => markerStep

/-- The execution order of the blocks as they appear in the source file:
navigator identity, userAgentData, canvas, WebGL, audio, the artifact
sweep, permissions, plugins, and finally the marker. -/
def applySteps : List StepLabel :=
  [.navIdentity, .userAgentData, .canvas, .webgl, .audio,
   .artifactSweep, .permissions, .plugins, .marker]

/-- Run one block inside its `try { ... } catch (e) { /* ignore */ }`:
an error leaves the state as it was when the block started. -/
def runStep (h : Host) (s : StepLabel) : Host :=
  match stepOf s h with
  | .ok h2 => h2
  | .error _ => h

/-- The injection entry point: run every block in order, each inside its
own failure boundary. -/
def apply (h : Host) : Host := applySteps.foldl runStep h

/-- Run one block with its catch, keeping the Except view: the catch turns
any error into successful continuation from the unchanged state. -/
def runStepE (h : Host) (s : StepLabel) : Except String Host :=
  match stepOf s h with
  | .ok h2 => .ok h2
  | .error _ => .ok h

/-- The entry point viewed in the exception monad: what the caller of the
IIFE can observe of error propagation. -/
def applyE (h : Host) : Except String Host := applySteps.foldlM runStepE h

/-! ### Concrete hosts and observable bundles used by the theorems -/

/-- A pristine WebGL parameter query that reveals the GPU identity. -/
def nativeGPU : Nat → GLVal := fun _ => GLVal.str "NVIDIA Corporation"

/-- A concrete automated-browser host: Linux identity, webdriver flag
set, empty plugin and mimeType lists, a GPU-revealing WebGL query, an
identity pixel readout, and driver marker properties (one of them
non-deletable) on the global object. -/
def baseHost : Host where
  navLanguages := ["ro-RO"]
  navPlatform := "Linux x86_64"
  navHardwareConcurrency := 4
  navDeviceMemory := 4
  navWebdriver := some true
  navUserAgentData := none
  navPlugins := some []
  navMimeTypes := some []
  permissionsQuery := some fun _ => "prompt"
  notificationPermission := "default"
  toDataURLImpl := fun c => c.pixels
  getImageDataImpl := fun d => d
  webglGetParameter := some nativeGPU
  getChannelDataImpl := nativeGetChannelData
  winProps := [⟨"cdc_abc", true⟩, ⟨"selenium_x", false⟩, ⟨"__webdriver", true⟩]

/-- The same host on an engine with no `WebGLRenderingContext` at all. -/
def hostNoWebgl : Host := { baseHost with webglGetParameter := none }

/-- All non-WebGL surfaces of `result` carry the patched state derived
from `orig`: the navigator identity getters, the userAgentData fallback,
both canvas wrappers, the audio wrapper, the swept-and-marked window
properties, the permissions wrapper and the plugin fallbacks. -/
def nonWebglPatchesInstalled (orig result : Host) : Prop :=
  result.navLanguages = ["en-US", "en"] ∧
  result.navPlatform = "Win32" ∧
  result.navHardwareConcurrency = 8 ∧
  result.navDeviceMemory = 8 ∧
  result.navWebdriver = none ∧
  result.navUserAgentData = uaPatch orig.navUserAgentData ∧
  result.toDataURLImpl = (fun c => orig.toDataURLImpl (transparentTouch c)) ∧
  result.getImageDataImpl = (fun d => noisePixels (orig.getImageDataImpl d)) ∧
  result.getChannelDataImpl = wrapGetChannelData orig.getChannelDataImpl ∧
  result.winProps
    = defineWinProp (artifactSweepProps orig.winProps) markerName true ∧
  result.permissionsQuery
    = permPatch orig.notificationPermission orig.permissionsQuery ∧
  result.navPlugins = pluginsPatch orig.navPlugins ∧
  result.navMimeTypes = mimesPatch orig.navMimeTypes

/-- The observables on which a second invocation of the entry point
agrees with the first: every navigator getter, the userAgentData slot,
the toDataURL behaviour, the WebGL query, the permissions query, the
plugin and mimeType lists, and the global own properties. -/
def stableUnderReapply (once twice : Host) : Prop :=
  twice.navLanguages = once.navLanguages ∧
  twice.navPlatform = once.navPlatform ∧
  twice.navHardwareConcurrency = once.navHardwareConcurrency ∧
  twice.navDeviceMemory = once.navDeviceMemory ∧
  twice.navWebdriver = once.navWebdriver ∧
  twice.navUserAgentData = once.navUserAgentData ∧
  twice.toDataURLImpl = once.toDataURLImpl ∧
  twice.webglGetParameter = once.webglGetParameter ∧
  twice.permissionsQuery = once.permissionsQuery ∧
  twice.navPlugins = once.navPlugins ∧
  twice.navMimeTypes = once.navMimeTypes ∧
  twice.winProps = once.winProps

/-! ### What one run of the entry point does, as a single record -/

/-- Running the whole pipeline rewrites each surface of the host in terms
of its initial state: fixed navigator getters, the userAgentData fallback,
both canvas wrappers, the WebGL wrapper when WebGL exists (and no change
when referencing it threw), the audio wrapper, the swept window
properties with the marker defined last, the permissions wrapper, and the
plugin fallbacks. -/
theorem apply_char (h : Host) : apply h = { h with
    navLanguages := ["en-US", "en"]
    navPlatform := "Win32"
    navHardwareConcurrency := 8
    navDeviceMemory := 8
    navWebdriver := none
    navUserAgentData := uaPatch h.navUserAgentData
    toDataURLImpl := fun c => h.toDataURLImpl (transparentTouch c)
    getImageDataImpl := fun d => noisePixels (h.getImageDataImpl d)
    webglGetParameter := Option.map patchedGetParameter h.webglGetParameter
    getChannelDataImpl := wrapGetChannelData h.getChannelDataImpl
    winProps := defineWinProp (artifactSweepProps h.winProps) markerName true
    permissionsQuery := permPatch h.notificationPermission h.permissionsQuery
    navPlugins := pluginsPatch h.navPlugins
    navMimeTypes := mimesPatch h.navMimeTypes } := by
  cases hw : h.webglGetParameter <;>
    simp [apply, applySteps, List.foldl, runStep, stepOf, navStep, uaStep,
      canvasStep, webglStep, audioStep, artifactStep, permissionsStep,
      pluginsStep, markerStep, hw, Option.map]

/-- Each block's catch makes the step succeed from the caller's point of
view. -/
theorem runStepE_eq_ok (h : Host) (s : StepLabel) :
    runStepE h s = .ok (runStep h s) := by
  unfold runStepE runStep
  cases stepOf s h <;> rfl

/-- The entry point never lets an error escape: the exception-monad view
of any step sequence returns the plain-state result. -/
theorem foldlM_runStepE_ok (ss : List StepLabel) (h : Host) :
    ss.foldlM runStepE h = .ok (ss.foldl runStep h) := by
  induction ss generalizing h with
  | nil => rfl
  | cons s rest ih =>
    rw [List.foldlM_cons, runStepE_eq_ok]
    simpa [List.foldl_cons] using ih (runStep h s)

/-- The IIFE never raises to its caller, whatever the initial host. -/
theorem applyE_ok (h : Host) : applyE h = .ok (apply h) :=
  foldlM_runStepE_ok applySteps h

/-! ### Properties of the noise passes -/

/-- XOR with 0x11 never fixes a byte. -/
theorem perturbByte_ne (b : Nat) : perturbByte b ≠ b := by
  intro hEq
  simp only [perturbByte] at hEq
  have h1 : (b ^^^ 0x11) ^^^ b = 0 := by rw [hEq, Nat.xor_self]
  rw [Nat.xor_comm b 0x11, Nat.xor_cancel_right] at h1
  exact absurd h1 (by decide)

/-- The noise pass preserves the buffer length. -/
theorem noisePixelsAux_length (i : Nat) (d : List Nat) :
    (noisePixelsAux i d).length = d.length := by
  induction d generalizing i with
  | nil => rfl
  | cons b bs ih => simp [noisePixelsAux, ih]

/-- Pointwise view of the noise pass started at running index `i`: the
byte at offset `j` is perturbed exactly when the global index `i + j` is a
multiple of 10. -/
theorem noisePixelsAux_get? (d : List Nat) (i j : Nat) :
    (noisePixelsAux i d).get? j =
      (d.get? j).map (fun b => if (i + j) % 10 = 0 then perturbByte b else b) := by
  induction d generalizing i j with
  | nil => simp [noisePixelsAux]
  | cons b bs ih =>
    cases j with
    | zero => simp [noisePixelsAux]
    | succ j =>
      have hidx : i + (j + 1) = i + 1 + j := by omega
      simp only [noisePixelsAux, List.get?_cons_succ, hidx]
      exact ih (i + 1) j

/-- Pointwise view of the full noise pass: byte `i` is XORed with 0x11
when `i` is a multiple of 10 and kept otherwise. -/
theorem noisePixels_get? (d : List Nat) (i : Nat) :
    (noisePixels d).get? i =
      (d.get? i).map (fun b => if i % 10 = 0 then perturbByte b else b) := by
  simpa using noisePixelsAux_get? d 0 i

/-- Every byte at a stride boundary within the buffer is changed. -/
theorem noisePixels_stride_ne (d : List Nat) (k : Nat)
    (hk : 10 * k < d.length) :
    (noisePixels d).get? (10 * k) ≠ d.get? (10 * k) := by
  rw [noisePixels_get?]
  rcases List.get?_eq_get hk with h
  rw [h]
  simp only [Option.map_some, Nat.mul_mod_right, if_pos rfl]
  intro hc
  exact perturbByte_ne _ (Option.some.inj hc)

/-- The transparent 1x1 fill is a pixel no-op: source-over with a source
of alpha zero returns the destination pixel unchanged. -/
theorem sourceOver_transparent (p : RGBA) :
    sourceOver transparentBlack p = p := by
  cases p
  simp [sourceOver, transparentBlack]

/-- Hence the toDataURL wrapper's pre-touch leaves every canvas exactly as
it was. -/
theorem transparentTouch_eq (c : Canvas) : transparentTouch c = c := by
  unfold transparentTouch fillRect1x1
  cases c with
  | mk pixels has2d =>
    cases has2d <;> cases pixels <;> simp [sourceOver_transparent]

/-! ### Re-application behaviour of the individual patches -/

/-- Re-running the userAgentData fallback changes nothing: after the first
run the slot is defined, so the `=== undefined` guard fails. -/
theorem uaPatch_idem (o : Option UAData) : uaPatch (uaPatch o) = uaPatch o := by
  cases o <;> simp [uaPatch]

/-- Re-wrapping the permissions query is observationally the wrap itself. -/
theorem permPatch_idem (np : String) (o : Option (String → String)) :
    permPatch np (permPatch np o) = permPatch np o := by
  cases o with
  | none => rfl
  | some q =>
    simp only [permPatch, Option.some.injEq]
    funext nm
    cases hnm : nm == "notifications" <;> simp [hnm]

/-- Re-running the plugins fallback changes nothing: the faux list is
non-empty, and a non-empty list is left untouched. -/
theorem pluginsPatch_idem (o : Option (List Plugin)) :
    pluginsPatch (pluginsPatch o) = pluginsPatch o := by
  cases o with
  | none => rfl
  | some ps => cases ps <;> simp [pluginsPatch, fakePlugins]

/-- Re-running the mimeTypes fallback changes nothing. -/
theorem mimesPatch_idem (o : Option (List MimeType)) :
    mimesPatch (mimesPatch o) = mimesPatch o := by
  cases o with
  | none => rfl
  | some ms => cases ms <;> simp [mimesPatch]

/-- Re-wrapping the WebGL parameter query is observationally the wrap
itself: the fixed branches shadow themselves and the delegate branch
delegates twice. -/
theorem patchedGetParameter_idem (g : Nat → GLVal) :
    patchedGetParameter (patchedGetParameter g) = patchedGetParameter g := by
  funext p
  by_cases h5 : p = 37445
  · simp [patchedGetParameter, h5]
  · by_cases h6 : p = 37446 <;> simp [patchedGetParameter, h5, h6]

/-- The marker name does not match the sweep regex, so the sweep always
keeps a marker property. -/
theorem sweepKeep_marker (del : Bool) : sweepKeep ⟨markerName, del⟩ = true := by
  have hm : artifactMatch markerName = false := by decide
  simp [sweepKeep, hm]

/-- The regex sweep only ever removes properties, keeping those whose
names do not match or that are not deletable. -/
theorem mem_artifactSweepProps {p : WinProp} {ps : List WinProp}
    (hp : p ∈ artifactSweepProps ps) : p ∈ ps ∧ sweepKeep p = true := by
  unfold artifactSweepProps deleteProp at hp
  rcases List.mem_filter.mp hp with ⟨hp1, hkeep⟩
  rcases List.mem_filter.mp hp1 with ⟨hp2, _⟩
  rcases List.mem_filter.mp hp2 with ⟨hp3, _⟩
  exact ⟨hp3, hkeep⟩

/-- A property the regex sweep keeps is also kept by any single named
delete whose target name matches the regex. -/
theorem keep_of_sweepKeep {p : WinProp} (hk : sweepKeep p = true)
    {nm : String} (hmatch : artifactMatch nm = true) :
    (!(p.propName == nm && p.deletable)) = true := by
  cases hname : p.propName == nm
  · simp
  · have heq : p.propName = nm := by simpa using hname
    cases hdel : p.deletable
    · simp [hdel]
    · exfalso
      unfold sweepKeep at hk
      rw [heq, hmatch, hdel] at hk
      simp at hk

/-- The artifact block is the identity on a property list it already
keeps entirely. -/
theorem artifactSweepProps_eq_self {ps : List WinProp}
    (hall : ∀ p ∈ ps, sweepKeep p = true) : artifactSweepProps ps = ps := by
  have h1 : deleteProp "__webdriver" ps = ps := by
    unfold deleteProp
    exact List.filter_eq_self.mpr
      (fun p hp => keep_of_sweepKeep (hall p hp) (by decide))
  have h2 : deleteProp "_webdriver" ps = ps := by
    unfold deleteProp
    exact List.filter_eq_self.mpr
      (fun p hp => keep_of_sweepKeep (hall p hp) (by decide))
  unfold artifactSweepProps
  rw [h1, h2]
  exact List.filter_eq_self.mpr hall

/-- Re-running the artifact block then the marker define on an
already-swept, already-marked property list changes nothing. -/
theorem winProps_idem (ps : List WinProp)
    (hall : ∀ p ∈ ps, sweepKeep p = true) :
    defineWinProp (artifactSweepProps (defineWinProp ps markerName true))
        markerName true
      = defineWinProp ps markerName true := by
  cases hA : ps.any (fun p => p.propName == markerName)
  · -- the marker was not an own name: the first run appended it
    have hdef : defineWinProp ps markerName true = ps ++ [⟨markerName, true⟩] := by
      simp only [defineWinProp, hA, Bool.false_eq_true, if_false]
    rw [hdef]
    have hall2 : ∀ p ∈ ps ++ [⟨markerName, true⟩], sweepKeep p = true := by
      intro p hp
      rcases List.mem_append.mp hp with hp1 | hp1
      · exact hall p hp1
      · rcases List.mem_singleton.mp hp1 with rfl
        exact sweepKeep_marker true
    rw [artifactSweepProps_eq_self hall2]
    have hany : ((ps ++ [(⟨markerName, true⟩ : WinProp)]).any
        (fun p => p.propName == markerName)) = true := by
      simp [List.any_append]
    simp only [defineWinProp, hany, if_true]
    rw [List.map_append]
    have hnm : ∀ x ∈ ps, ¬ x.propName = markerName := by simpa using hA
    have hmapps : ps.map
        (fun p => if p.propName == markerName then
          (⟨markerName, true⟩ : WinProp) else p) = ps := by
      conv_rhs => rw [← List.map_id ps]
      exact List.map_congr_left (fun p hp => by simp [hnm p hp])
    rw [hmapps]
    simp
  · -- the marker was already an own name: the first run redefined in place
    have hdef : defineWinProp ps markerName true
        = ps.map (fun p => if p.propName == markerName then
            (⟨markerName, true⟩ : WinProp) else p) := by
      simp only [defineWinProp, hA, if_true]
    rw [hdef]
    have hall2 : ∀ p ∈ ps.map (fun p => if p.propName == markerName then
        (⟨markerName, true⟩ : WinProp) else p), sweepKeep p = true := by
      intro p hp
      rcases List.mem_map.mp hp with ⟨q, hq, rfl⟩
      cases hqn : q.propName == markerName
      · simpa [hqn] using hall q hq
      · simp only [hqn, if_true]
        exact sweepKeep_marker true
    rw [artifactSweepProps_eq_self hall2]
    have hany : (ps.map (fun p => if p.propName == markerName then
        (⟨markerName, true⟩ : WinProp) else p)).any
          (fun p => p.propName == markerName) = true := by
      rcases List.any_eq_true.mp hA with ⟨q, hq, hqn⟩
      refine List.any_eq_true.mpr ⟨⟨markerName, true⟩, ?_, by simp⟩
      exact List.mem_map.mpr ⟨q, hq, by simp [hqn]⟩
    simp only [defineWinProp, hany, if_true]
    rw [List.map_map]
    refine List.map_congr_left ?_
    intro p _
    cases hpn : p.propName == markerName <;> simp [Function.comp, hpn]

/-- A member of a property list after a define is an original member or
the defined property itself. -/
theorem mem_defineWinProp {p : WinProp} {ps : List WinProp} {k : String}
    {del : Bool} (hp : p ∈ defineWinProp ps k del) : p ∈ ps ∨ p = ⟨k, del⟩ := by
  unfold defineWinProp at hp
  cases hA : ps.any (fun q => q.propName == k) with
  | true =>
    simp only [hA, if_true] at hp
    rcases List.mem_map.mp hp with ⟨q, hq, hqe⟩
    cases hqn : q.propName == k
    · left
      rw [← hqe]
      simpa [hqn] using hq
    · right
      rw [← hqe]
      simp [hqn]
  | false =>
    simp only [hA, Bool.false_eq_true, if_false] at hp
    rcases List.mem_append.mp hp with h1 | h1
    · exact Or.inl h1
    · exact Or.inr (List.mem_singleton.mp h1)

/-! ### The claims -/

/-- Claim C2: the patched getImageData returns the engine's buffer with
exactly the bytes at indices 0, 10, 20, ... XORed with 0x11 and all other
bytes unchanged (same length, pointwise characterization); it is
deterministic — the installed wrapper is a pure function of the engine
buffer, so repeated calls on the same canvas content return byte-identical
buffers — and it differs from the unpatched buffer at the first byte of
every 10-byte stride that lies inside the buffer. -/
theorem C2_getImageData_spec (h : Host) (content : List Nat) (i k : Nat) :
    (apply h).getImageDataImpl content = noisePixels (h.getImageDataImpl content) ∧
    (noisePixels (h.getImageDataImpl content)).length
      = (h.getImageDataImpl content).length ∧
    (noisePixels (h.getImageDataImpl content)).get? i
      = ((h.getImageDataImpl content).get? i).map
          (fun b => if i % 10 = 0 then perturbByte b else b) ∧
    (10 * k < (h.getImageDataImpl content).length →
      (noisePixels (h.getImageDataImpl content)).get? (10 * k)
        ≠ (h.getImageDataImpl content).get? (10 * k)) := by
  refine ⟨?_, noisePixelsAux_length 0 _, noisePixels_get? _ i,
    noisePixels_stride_ne _ k⟩
  rw [apply_char]

/-- Witness for C2 at a concrete host, buffer and stride. -/
theorem C2_witness :
    10 * 0 < (baseHost.getImageDataImpl [5]).length ∧
    (noisePixels (baseHost.getImageDataImpl [5])).get? (10 * 0)
      ≠ (baseHost.getImageDataImpl [5]).get? (10 * 0) :=
  ⟨by decide, (C2_getImageData_spec baseHost [5] 0 0).2.2.2 (by decide)⟩

/-- Claim C3: the entry point never raises to its caller — on every host
the exception-monad view returns ok — and on an engine with no
WebGLRenderingContext the WebGL surface is silently left unpatched while
every non-WebGL patch is still installed. -/
theorem C3_apply_never_raises (h : Host)
    (hw : h.webglGetParameter = none) :
    applyE h = .ok (apply h) ∧
    (apply h).webglGetParameter = none ∧
    nonWebglPatchesInstalled h (apply h) := by
  refine ⟨applyE_ok h, ?_, ?_⟩
  · rw [apply_char]
    simp [hw]
  · rw [apply_char]
    unfold nonWebglPatchesInstalled
    simp

/-- Witness for C3 at a concrete WebGL-less host. -/
theorem C3_witness :
    applyE hostNoWebgl = .ok (apply hostNoWebgl) ∧
    (apply hostNoWebgl).webglGetParameter = none ∧
    nonWebglPatchesInstalled hostNoWebgl (apply hostNoWebgl) :=
  C3_apply_never_raises hostNoWebgl rfl

/-- Counterexample to claim C4: parameter code 37446 is not 37445, yet
the patched getParameter does not return what the native query returns
for it — the fixed renderer string shadows the native value. -/
theorem C4_counterexample :
    patchedGetParameter nativeGPU 37446 ≠ nativeGPU 37446 := by decide

/-- Claim C4 as amended: the patched getParameter returns the fixed vendor
string at 37445 and the fixed renderer string at 37446, and delegates to
the native query, unmodified, at every code other than those two. -/
theorem C4_amended_holds (g : Nat → GLVal) (p : Nat) :
    patchedGetParameter g 37445 = .str "Intel Inc." ∧
    patchedGetParameter g 37446 = .str "Intel Iris OpenGL Engine" ∧
    (p ≠ 37445 → p ≠ 37446 → patchedGetParameter g p = g p) := by
  refine ⟨rfl, rfl, fun h5 h6 => ?_⟩
  simp [patchedGetParameter, h5, h6]

/-- Witness for C4 at a delegated parameter code. -/
theorem C4_witness : patchedGetParameter nativeGPU 1000 = nativeGPU 1000 :=
  (C4_amended_holds nativeGPU 1000).2.2 (by decide) (by decide)

/-- Counterexample to claim C5: the artifact sweep is not the last patch
step — steps other than the sweep run after it. -/
theorem C5_counterexample :
    ¬ (∀ s ∈ applySteps, s ≠ StepLabel.artifactSweep →
        applySteps.indexOf s < applySteps.indexOf StepLabel.artifactSweep) := by
  decide

/-- Claim C5 as amended: the execution order within one invocation is
identity, then userAgentData, then canvas, WebGL and audio, then the
artifact sweep, and only after it the permissions and plugin patches and
the applied marker — the sweep precedes permissions/plugins instead of
running strictly last. -/
theorem C5_amended_holds :
    applySteps.indexOf StepLabel.navIdentity
        < applySteps.indexOf StepLabel.userAgentData ∧
    applySteps.indexOf StepLabel.userAgentData
        < applySteps.indexOf StepLabel.canvas ∧
    applySteps.indexOf StepLabel.canvas
        < applySteps.indexOf StepLabel.webgl ∧
    applySteps.indexOf StepLabel.webgl
        < applySteps.indexOf StepLabel.audio ∧
    applySteps.indexOf StepLabel.audio
        < applySteps.indexOf StepLabel.artifactSweep ∧
    applySteps.indexOf StepLabel.artifactSweep
        < applySteps.indexOf StepLabel.permissions ∧
    applySteps.indexOf StepLabel.permissions
        < applySteps.indexOf StepLabel.plugins ∧
    applySteps.indexOf StepLabel.plugins
        < applySteps.indexOf StepLabel.marker ∧
    applySteps.length = 9 := by
  decide

/-- Claim C7 (the code defect): for every host and every canvas, the
patched toDataURL returns exactly what the unpatched encoder returns —
painting a fully transparent 1x1 rectangle composites nothing under
source-over, and the getImageData perturbation is applied to a returned
copy, never to the canvas bitmap — so the export fingerprint is NOT
changed, contrary to the stated property. -/
theorem C7_toDataURL_unchanged (h : Host) (c : Canvas) :
    (apply h).toDataURLImpl c = h.toDataURLImpl c := by
  rw [apply_char]
  show h.toDataURLImpl (transparentTouch c) = h.toDataURLImpl c
  rw [transparentTouch_eq]

/-- Counterexample to claim C8: the byte 0 is perturbed to 17, a change
of magnitude 17, far above the claimed bound of 1. -/
theorem C8_counterexample :
    ¬ (((perturbByte 0 : Int) - (0 : Int)).natAbs ≤ 1) := by decide

set_option maxRecDepth 8192 in
/-- Claim C8 as amended: XOR with 0x11 flips bits 0 and 4, so the
perturbation changes every byte value by exactly 15 or 17 in magnitude
(at most 17 out of 255), not by at most 1. -/
theorem C8_amended_holds (b : Fin 256) :
    ((perturbByte b.val : Int) - (b.val : Int)).natAbs = 15 ∨
    ((perturbByte b.val : Int) - (b.val : Int)).natAbs = 17 := by
  revert b
  decide

/-- Counterexample to claim C9: with an empty live mimeType list the
branch activates, yet what it installs is the empty list, not a non-empty
synthetic PDF entry set. -/
theorem C9_counterexample :
    baseHost.navMimeTypes = some [] ∧
    (apply baseHost).navMimeTypes = some [] := by decide

/-- Claim C9 as amended: the plugins branch activates only on a present
and empty plugin list and installs the fixed non-empty two-entry PDF
list; the mimeTypes branch activates only on a present and empty mimeType
list but installs an empty list; present non-empty lists and absent lists
are left untouched. -/
theorem C9_amended_holds (h : Host) :
    ((h.navPlugins = some [] →
        (apply h).navPlugins = some fakePlugins ∧ fakePlugins ≠ []) ∧
     (∀ ps, h.navPlugins = some ps → ps ≠ [] →
        (apply h).navPlugins = some ps) ∧
     (h.navPlugins = none → (apply h).navPlugins = none)) ∧
    ((h.navMimeTypes = some [] → (apply h).navMimeTypes = some []) ∧
     (∀ ms, h.navMimeTypes = some ms → ms ≠ [] →
        (apply h).navMimeTypes = some ms) ∧
     (h.navMimeTypes = none → (apply h).navMimeTypes = none)) := by
  rw [apply_char]
  refine ⟨⟨fun he => ?_, fun ps hps hne => ?_, fun he => ?_⟩,
    ⟨fun he => ?_, fun ms hms hne => ?_, fun he => ?_⟩⟩
  · rw [he]
    exact ⟨rfl, by decide⟩
  · rw [hps]
    cases ps with
    | nil => exact absurd rfl hne
    | cons x xs => simp [pluginsPatch]
  · rw [he]
    rfl
  · rw [he]
    rfl
  · rw [hms]
    cases ms with
    | nil => exact absurd rfl hne
    | cons x xs => simp [mimesPatch]
  · rw [he]
    rfl

/-- Witness for C9 at a concrete host with empty plugin and mimeType
lists. -/
theorem C9_witness :
    (apply baseHost).navPlugins = some fakePlugins ∧
    (apply baseHost).navMimeTypes = some [] :=
  ⟨((C9_amended_holds baseHost).1.1 rfl).1,
   (C9_amended_holds baseHost).2.1 rfl⟩

/-- Counterexample to claim C1: invoking the entry point twice is
observable — the getImageData installed after two applications runs the
XOR pass twice, which cancels, so on a one-byte canvas buffer it returns
the original byte while the singly-installed wrapper returns the
perturbed byte. -/
theorem C1_counterexample :
    (apply (apply baseHost)).getImageDataImpl [0]
      ≠ (apply baseHost).getImageDataImpl [0] := by decide

/-- Claim C1 as amended: re-invoking the entry point throws no error, and
the second invocation leaves every static observable — the navigator
getters, userAgentData, the toDataURL behaviour, the WebGL query, the
permissions query, the plugin and mimeType lists, and the global own
properties — identical to a single invocation; but the getImageData and
getChannelData wrappers stack, so after two invocations they perturb the
buffer twice (for getImageData the XOR cancels), which is observably
different from one invocation. -/
theorem C1_amended_holds (h : Host) :
    applyE h = .ok (apply h) ∧
    applyE (apply h) = .ok (apply (apply h)) ∧
    stableUnderReapply (apply h) (apply (apply h)) ∧
    (apply (apply h)).getImageDataImpl
      = (fun d => noisePixels (noisePixels (h.getImageDataImpl d))) ∧
    (apply (apply h)).getChannelDataImpl
      = wrapGetChannelData (wrapGetChannelData h.getChannelDataImpl) := by
  refine ⟨applyE_ok h, applyE_ok (apply h), ?_, ?_, ?_⟩
  · unfold stableUnderReapply
    rw [apply_char (apply h), apply_char h]
    refine ⟨rfl, rfl, rfl, rfl, rfl, uaPatch_idem _, ?_, ?_, ?_, ?_, ?_, ?_⟩
    · funext c
      simp [transparentTouch_eq]
    · cases h.webglGetParameter <;> simp [patchedGetParameter_idem]
    · exact permPatch_idem _ _
    · exact pluginsPatch_idem _
    · exact mimesPatch_idem _
    · exact winProps_idem (artifactSweepProps h.winProps)
        (fun p hp => (mem_artifactSweepProps hp).2)
  · rw [apply_char (apply h), apply_char h]
  · rw [apply_char (apply h), apply_char h]

/-- Counterexample to claim C6: a bare `cdc_`-prefixed own property — no
leading underscore — matches the claimed artifact pattern, is deletable,
yet survives the sweep (the code's regex anchors the cdc branch behind a
mandatory underscore), so the post-apply own names still contain it. -/
theorem C6_counterexample :
    specArtifactMatch "cdc_abc" = true ∧
    artifactMatch "cdc_abc" = false ∧
    (⟨"cdc_abc", true⟩ : WinProp) ∈ (apply baseHost).winProps := by decide

/-- Claim C6 as amended: after the entry point runs, every remaining own
property whose name matches the code's sweep pattern (an underscore-led
`cdc_` prefix, or a name containing webdriver, __driver, selenium or
driver, case-insensitively) is non-deletable; deletable matches are all
removed, but a bare `cdc_`-prefixed name or a non-deletable match can
survive. -/
theorem C6_amended_holds (h : Host) (p : WinProp)
    (hp : p ∈ (apply h).winProps) (hm : artifactMatch p.propName = true) :
    p.deletable = false := by
  rw [apply_char] at hp
  have hp2 : p ∈ defineWinProp (artifactSweepProps h.winProps) markerName true := hp
  rcases mem_defineWinProp hp2 with hmem | rfl
  · have hk := (mem_artifactSweepProps hmem).2
    simpa [sweepKeep, hm] using hk
  · exact absurd hm (by decide)

/-- Witness for C6: the non-deletable selenium-named property of the
concrete host is still an own property after apply, and it matches the
sweep pattern. -/
theorem C6_witness :
    (⟨"selenium_x", false⟩ : WinProp) ∈ (apply baseHost).winProps ∧
    artifactMatch "selenium_x" = true ∧
    (⟨"selenium_x", false⟩ : WinProp).deletable = false :=
  ⟨by decide, by decide,
   C6_amended_holds baseHost ⟨"selenium_x", false⟩ (by decide) (by decide)⟩

/-- Counterexample to claim C10: the audio wrapper is not stateless — it
writes the perturbed samples back into the buffer's live channel array,
so a second call on the same unchanged AudioBuffer returns different
sample values (the epsilon accumulates). -/
theorem C10_counterexample :
    ((apply baseHost).getChannelDataImpl
        (((apply baseHost).getChannelDataImpl ⟨[0]⟩).2)).1
      ≠ ((apply baseHost).getChannelDataImpl ⟨[0]⟩).1 := by
  have h1 : (apply baseHost).getChannelDataImpl
      = wrapGetChannelData nativeGetChannelData := by
    rw [apply_char]
    rfl
  rw [h1]
  simp [wrapGetChannelData, nativeGetChannelData, noiseAudio, noiseAudioAux,
    audioEpsilon]

/-- Claim C10 as amended: the canvas wrapper is stateless — its output is
a pure function of the engine buffer, leaving the canvas untouched — but
the audio wrapper mutates the shared channel array in place: on a live
engine buffer the first call returns the perturbed samples and stores
them, and a second call perturbs them again. -/
theorem C10_amended_holds (h : Host) (b : AudioBuffer) (d : List Nat)
    (hn : h.getChannelDataImpl = nativeGetChannelData) :
    (apply h).getImageDataImpl d = noisePixels (h.getImageDataImpl d) ∧
    (apply h).getChannelDataImpl b
      = (noiseAudio b.channel, ⟨noiseAudio b.channel⟩) ∧
    ((apply h).getChannelDataImpl ((apply h).getChannelDataImpl b).2).1
      = noiseAudio (noiseAudio b.channel) := by
  rw [apply_char, hn]
  exact ⟨rfl, rfl, rfl⟩

/-- Witness for C10 at a concrete one-sample buffer. -/
theorem C10_witness :
    (apply baseHost).getChannelDataImpl ⟨[0]⟩
      = (noiseAudio [0], ⟨noiseAudio [0]⟩) ∧
    ((apply baseHost).getChannelDataImpl
        ((apply baseHost).getChannelDataImpl ⟨[0]⟩).2).1
      = noiseAudio (noiseAudio [0]) :=
  ⟨(C10_amended_holds baseHost ⟨[0]⟩ [] rfl).2.1,
   (C10_amended_holds baseHost ⟨[0]⟩ [] rfl).2.2⟩

end Stealth
